import Mathlib

/-!
Verification of the peer-to-peer transport (`src/client/transport/p2p.ts`).

The file shallowly embeds the two classes of that module:

* `P2PHost` — the host-side router holding the map of connected clients and
  forwarding actions into the authoritative `Master`; and
* `P2PTransport` — the role-agnostic transport managing the
  connect/disconnect/reconnect lifecycle.

Effectful calls are embedded as traces: invocations of the `Master`'s entry
points become a `List MasterCall`, deliveries performed by the push callbacks
`send`/`sendAll` become the list of client ids reached, and the actions a
transport passes to its installed `this.emit` closure become a
`List ClientAction`.  JavaScript object identity (the key of the `clients`
`Map`) is embedded as a numeric `id` field on each client registration.
-/

namespace BoardgameIO.P2P

/-- Argument tuple of `Master.onUpdate`: the credentialed action (opaque, kept
as a `Nat` token), the client state id, the match id and the player id.  The
transport's `playerID` may be absent at runtime, hence `Option String`. -/
structure UpdateArgs where
  action : Nat
  stateID : Nat
  matchID : String
  playerID : Option String
  deriving DecidableEq, Repr

/-- Argument tuple of `Master.onChatMessage`: match id, chat message (opaque
`Nat` token) and optional credentials. -/
structure ChatArgs where
  matchID : String
  chatMessage : Nat
  credentials : Option String
  deriving DecidableEq, Repr

/-- Argument tuple of `Master.onSync`: match id, player id, credentials and
the number of players. -/
structure SyncArgs where
  matchID : String
  playerID : Option String
  credentials : Option String
  numPlayers : Nat
  deriving DecidableEq, Repr

/-- The closed union `ClientAction` of p2p.ts: data sent from clients to the
host, tagged `update` / `chat` / `sync`, each carrying exactly the positional
arguments of the corresponding `Master` entry point. -/
inductive ClientAction where
  | update (args : UpdateArgs)
  | chat (args : ChatArgs)
  | sync (args : SyncArgs)
  deriving DecidableEq, Repr

/-- A datum arriving on the host's data channel at runtime.  The wire is
untyped, so besides well-formed `ClientAction`s a datum may carry a `type`
tag outside the closed set; `other tag` stands for any such value. -/
inductive HostData where
  | action (a : ClientAction)
  | other (tag : String)
  deriving DecidableEq, Repr

/-- One invocation of an entry point of the authoritative `Master`,
with the arguments it was passed. -/
inductive MasterCall where
  | onUpdate (args : UpdateArgs)
  | onChatMessage (args : ChatArgs)
  | onSync (args : SyncArgs)
  | onConnectionChange (matchID : String) (playerID : String)
      (connID : Option String) (isConnected : Bool)
  deriving DecidableEq, Repr

/-- One client registration held by `P2PHost.clients`.  `id` embeds the
JavaScript object identity of the registration (the `Map` key); `playerID`
is the registration's `metadata.playerID`; `sendThrows` records whether this
registration's underlying `send` throws when invoked (the fan-out loops in
the source call `client.send(data)` with no try/catch). -/
structure Client where
  id : Nat
  playerID : String
  sendThrows : Bool
  deriving DecidableEq, Repr

/-- The `send({playerID, ...data})` push callback wired into the `Master` by
the `P2PHost` constructor: iterate the clients in insertion order, `continue`
past registrations whose `metadata.playerID` differs from the target, and
call `client.send(data)` on each match.  Returns the ids of the clients whose
`send` was invoked and returned, and `true` iff the loop ran to completion
(an uncaught throw aborts the loop, so everything after it is skipped). -/
def sendRun : List Client → String → List Nat × Bool
  | [], _ => ([], true)
  | c :: rest, pid =>
    if c.playerID ≠ pid then sendRun rest pid
    else if c.sendThrows then ([], false)
    else
      let r := sendRun rest pid
      (c.id :: r.1, r.2)

/-- The `sendAll(data)` push callback wired into the `Master` by the
`P2PHost` constructor: iterate the clients in insertion order and call
`client.send(data)` on every one, with no try/catch around the call. -/
def sendAllRun : List Client → List Nat × Bool
  | [] => ([], true)
  | c :: rest =>
    if c.sendThrows then ([], false)
    else
      let r := sendAllRun rest
      (c.id :: r.1, r.2)

/-- State of one `P2PHost`: its match id, the `clients` map (a list in
insertion order, keyed by object identity `id`) and the trace of `Master`
invocations it has made, oldest first. -/
structure HostState where
  matchID : String
  clients : List Client
  calls : List MasterCall
  deriving DecidableEq, Repr

/-- `P2PHost.registerClient`: `this.clients.set(client, client)` — a `Map`
keyed by the client object inserts a fresh key at the end and overwrites the
value of an existing key in place — then notifies the `Master` of a
connectivity change (this player now connected). -/
def registerClient (st : HostState) (c : Client) : HostState :=
  { st with
    clients :=
      if st.clients.any (fun x => x.id = c.id) then
        st.clients.map (fun x => if x.id = c.id then c else x)
      else st.clients ++ [c]
    calls := st.calls ++ [.onConnectionChange st.matchID c.playerID none true] }

/-- `P2PHost.unregisterClient`: `this.clients.delete(client)` — removes the
entry with this key if present, otherwise leaves the map unchanged — then
notifies the `Master` of a connectivity change (now disconnected), whether or
not the client was present. -/
def unregisterClient (st : HostState) (c : Client) : HostState :=
  { st with
    clients := st.clients.eraseP (fun x => decide (x.id = c.id))
    calls := st.calls ++ [.onConnectionChange st.matchID c.playerID none false] }

/-- `P2PHost.processAction`: a `switch` on `data.type` with cases `update`,
`chat`, `sync` and no `default` clause, spreading the carried `args` into the
matching `Master` entry point.  Returns the `Master` invocations made. -/
def processAction : HostData → List MasterCall
  | .action (.update a) => [.onUpdate a]
  | .action (.chat a) => [.onChatMessage a]
  | .action (.sync a) => [.onSync a]
  | .other _ => []

/-- Lifecycle phase of the `Peer` object held by a `P2PTransport`.  A host
peer listens on its namespaced id.  A client peer first waits for its own
`open` event, then dials the host (the dial target was computed at
`connect()` time) and waits for the connection's `open` event. -/
inductive PeerPhase where
  | hostListening (listenID : Option String)
  | clientAwaitingPeerOpen (dialTarget : Option String)
  | clientAwaitingDialOpen (dialTarget : Option String)
  | clientDialOpened (dialTarget : Option String)
  deriving DecidableEq, Repr

/-- Which closure is installed as `this.emit`: the host's local
`host.processAction` loopback, or the client's `host.send` over the dialed
connection. -/
inductive EmitTarget where
  | localHost
  | remoteHost
  deriving DecidableEq, Repr

/-- State of one `P2PTransport`.  The identity fields (`gameName`,
`matchID`, `playerID`, `credentials`, `numPlayers`) and the connection-status
flag live on the `Transport` base class; the base class is not part of this
module, so they are modelled from the spec: `setConnectionStatus(b)` stores
`b` as the transport's connection status.  `peer` is `none` exactly when
`this.peer` is null/undefined; `emit` is `none` exactly when `this.emit` has
never been assigned (note: `disconnect()` never clears it); `issued` is the
trace of actions passed to `this.emit`, oldest first. -/
structure TransportState where
  gameName : String
  matchID : String
  playerID : Option String
  credentials : Option String
  numPlayers : Nat
  isHost : Bool
  peer : Option PeerPhase
  emit : Option EmitTarget
  connectionStatus : Bool
  issued : List ClientAction
  deriving DecidableEq, Repr

/-- `P2PTransport.namespacedPeerID`: `this.matchID ?
boardgameio-gameName-matchid-matchID : undefined` (the empty string is
falsy in JavaScript). -/
def namespacedPeerID (s : TransportState) : Option String :=
  if s.matchID = "" then none
  else some ("boardgameio-" ++ s.gameName ++ "-matchid-" ++ s.matchID)

/-- Modelled from the spec: `Transport.setConnectionStatus` (base class, not
in this module) stores the flag as the transport's connection status. -/
def setConnectionStatus (s : TransportState) (b : Bool) : TransportState :=
  { s with connectionStatus := b }

/-- Invoke `this.emit(a)` the way every sender in the source does: each of
`requestSync`, `sendAction` and `sendChatMessage` begins with
`if (!this.emit) return;` and otherwise passes the constructed action to the
installed closure. -/
def emitAction (s : TransportState) (a : ClientAction) : TransportState :=
  if s.emit.isSome then { s with issued := s.issued ++ [a] } else s

/-- `P2PTransport.requestSync`: emit a `sync` action carrying the
transport's current match id, player id, credentials and player count;
dropped silently when no emit closure is installed. -/
def requestSync (s : TransportState) : TransportState :=
  emitAction s (.sync ⟨s.matchID, s.playerID, s.credentials, s.numPlayers⟩)

/-- `P2PTransport.sendAction`: emit an `update` action carrying the given
credentialed action, the state id and the transport's current match and
player ids; dropped silently when no emit closure is installed. -/
def sendAction (s : TransportState) (action : Nat) (stateID : Nat) :
    TransportState :=
  emitAction s (.update ⟨action, stateID, s.matchID, s.playerID⟩)

/-- `P2PTransport.sendChatMessage`: emit a `chat` action carrying the given
match id, the chat message and the transport's current credentials; dropped
silently when no emit closure is installed. -/
def sendChatMessage (s : TransportState) (matchID : String)
    (chatMessage : Nat) : TransportState :=
  emitAction s (.chat ⟨matchID, chatMessage, s.credentials⟩)

/-- `P2PTransport.connect` (the synchronous part).  Compute
`hostID = namespacedPeerID()` once.  Host path: create the peer listening on
`hostID`, construct the `P2PHost`, install the local `processAction` loopback
as `this.emit`, register the loopback client, and call `requestSync()` (the
host-side `P2PHost` effects are modelled separately by `HostState`).  Client
path: create an anonymous peer and register the `open` callback that will
dial `hostID`; nothing is emitted yet and `this.emit` keeps whatever value it
had.  Either way the source ends with `setConnectionStatus(true)`. -/
def connect (s : TransportState) : TransportState :=
  let hostID := namespacedPeerID s
  if s.isHost then
    let s1 := { s with peer := some (.hostListening hostID)
                       emit := some .localHost }
    setConnectionStatus (requestSync s1) true
  else
    setConnectionStatus
      { s with peer := some (.clientAwaitingPeerOpen hostID) } true

/-- The client peer's `open` event: `this.peer.connect(hostID)` creates the
connection to the host and `this.emit` becomes `(action) => host.send(action)`
immediately, before the dial itself opens.  Fires only for a live client peer
still awaiting its own `open`. -/
def peerOpenEvent (s : TransportState) : TransportState :=
  match s.peer with
  | some (.clientAwaitingPeerOpen hostID) =>
      { s with peer := some (.clientAwaitingDialOpen hostID)
               emit := some .remoteHost }
  | _ => s

/-- The dialed connection's `open` event: `host.on('open', () =>
this.requestSync())`.  Fires only for a live client peer whose dial was in
flight. -/
def dialOpenEvent (s : TransportState) : TransportState :=
  match s.peer with
  | some (.clientAwaitingDialOpen hostID) =>
      requestSync { s with peer := some (.clientDialOpened hostID) }
  | _ => s

/-- `P2PTransport.disconnect`: destroy the peer if one exists (killing its
pending events), null the handle, and set the connection status to false.
`this.emit` is left untouched. -/
def disconnect (s : TransportState) : TransportState :=
  setConnectionStatus { s with peer := none } false

/-- `P2PTransport.resetAndReconnect`: `disconnect()` then `connect()`. -/
def resetAndReconnect (s : TransportState) : TransportState :=
  connect (disconnect s)

/-- `P2PTransport.updateMatchID`: store the new match id, then
`resetAndReconnect()`. -/
def updateMatchID (s : TransportState) (id : String) : TransportState :=
  resetAndReconnect { s with matchID := id }

/-- `P2PTransport.updatePlayerID`: store the new player id, then
`resetAndReconnect()`. -/
def updatePlayerID (s : TransportState) (id : String) : TransportState :=
  resetAndReconnect { s with playerID := some id }

/-- `P2PTransport.updateCredentials`: store the new credentials, then
`resetAndReconnect()`. -/
def updateCredentials (s : TransportState) (credentials : Option String) :
    TransportState :=
  resetAndReconnect { s with credentials := credentials }

/-! ## Helper lemmas about the fan-out loops -/

/-- When no registration's send throws, `sendAll` runs to completion and
delivers to every client in iteration order. -/
theorem sendAllRun_of_noThrow (cs : List Client)
    (h : ∀ c ∈ cs, c.sendThrows = false) :
    sendAllRun cs = (cs.map Client.id, true) := by
  induction cs with
  | nil => rfl
  | cons c rest ih =>
    have hc := h c (List.mem_cons_self c rest)
    have hrest := ih fun x hx => h x (List.mem_cons_of_mem c hx)
    simp [sendAllRun, hc, hrest]

/-- When no registration's send throws, `send` runs to completion and
delivers to exactly the clients whose player id matches the target, in
iteration order. -/
theorem sendRun_of_noThrow (cs : List Client) (pid : String)
    (h : ∀ c ∈ cs, c.sendThrows = false) :
    sendRun cs pid =
      ((cs.filter fun c => decide (c.playerID = pid)).map Client.id, true) := by
  induction cs with
  | nil => rfl
  | cons c rest ih =>
    have hc := h c (List.mem_cons_self c rest)
    have hrest := ih fun x hx => h x (List.mem_cons_of_mem c hx)
    by_cases hp : c.playerID = pid
    · simp [sendRun, hp, hc, hrest, List.filter_cons]
    · simp [sendRun, hp, hrest, List.filter_cons]

/-! ## C1 — failure isolation during fan-out -/

/-- C1 counterexample: take two live registrations for player "0", where the
first one's underlying send throws.  The claim says delivery still reaches
every other registration, but `sendAll` delivers to nobody: the loop has no
try/catch, so the throw aborts it before the second (healthy) registration
is reached. -/
theorem sendAll_throw_counterexample :
    sendAllRun [⟨0, "0", true⟩, ⟨1, "0", false⟩] = ([], false) ∧
    (1 : Nat) ∉ (sendAllRun [⟨0, "0", true⟩, ⟨1, "0", false⟩]).1 := by
  decide

/-- C1 (amended): if one registration's underlying send throws during a
`send(playerID, payload)` or `sendAll(payload)` fan-out, the registrations
iterated before the failing one have already received the payload and the
failing registration is not retried, but the uncaught exception aborts the
loop: registrations after the failing one receive nothing. -/
theorem fanout_throw_aborts_broadcast :
    (∀ pre bad post, (∀ c ∈ pre, c.sendThrows = false) →
      bad.sendThrows = true →
      sendAllRun (pre ++ bad :: post) = (pre.map Client.id, false)) ∧
    (∀ pre bad post pid, (∀ c ∈ pre, c.sendThrows = false) →
      bad.sendThrows = true → bad.playerID = pid →
      sendRun (pre ++ bad :: post) pid =
        ((pre.filter fun c => decide (c.playerID = pid)).map Client.id,
          false)) := by
  constructor
  · intro pre bad post hpre hbad
    induction pre with
    | nil => simp [sendAllRun, hbad]
    | cons c rest ih =>
      have hc := hpre c (List.mem_cons_self c rest)
      have hrest := ih fun x hx => hpre x (List.mem_cons_of_mem c hx)
      simp [sendAllRun, hc, hrest]
  · intro pre bad post pid hpre hbad hmatch
    induction pre with
    | nil => simp [sendRun, hmatch, hbad]
    | cons c rest ih =>
      have hc := hpre c (List.mem_cons_self c rest)
      have hrest := ih fun x hx => hpre x (List.mem_cons_of_mem c hx)
      by_cases hp : c.playerID = pid
      · simp [sendRun, hp, hc, hrest, List.filter_cons]
      · simp [sendRun, hp, hrest, List.filter_cons]

/-- Witness for C1 (amended): one healthy registration, then a throwing one,
then another healthy one, all for player "0"; both fan-outs deliver to the
first registration only and abort. -/
theorem fanout_throw_aborts_broadcast_witness :
    sendAllRun [⟨1, "0", false⟩, ⟨0, "0", true⟩, ⟨2, "0", false⟩] =
      ([1], false) ∧
    sendRun [⟨1, "0", false⟩, ⟨0, "0", true⟩, ⟨2, "0", false⟩] "0" =
      ([1], false) := by
  constructor
  · simpa using fanout_throw_aborts_broadcast.1 [⟨1, "0", false⟩]
      ⟨0, "0", true⟩ [⟨2, "0", false⟩] (by decide) (by decide)
  · simpa using fanout_throw_aborts_broadcast.2 [⟨1, "0", false⟩]
      ⟨0, "0", true⟩ [⟨2, "0", false⟩] "0" (by decide) (by decide) (by decide)

/-! ## C3 — targeted send reaches exactly the matching registrations -/

/-- C3: when the underlying sends succeed, `send(playerID, payload)`
delivers to exactly the registrations whose metadata player id equals the
target (in iteration order, possibly several) and to no other registration,
and the loop completes without error even when zero registrations match. -/
theorem send_delivers_to_matching_only (cs : List Client) (pid : String)
    (h : ∀ c ∈ cs, c.sendThrows = false) :
    sendRun cs pid =
      ((cs.filter fun c => decide (c.playerID = pid)).map Client.id, true) :=
  sendRun_of_noThrow cs pid h

/-- Witness for C3: three registrations, two of them for player "0"; the
targeted send reaches exactly those two; a send to an absent player "9"
reaches nobody and still completes. -/
theorem send_delivers_to_matching_only_witness :
    sendRun [⟨0, "0", false⟩, ⟨1, "1", false⟩, ⟨2, "0", false⟩] "0" =
      ([0, 2], true) ∧
    sendRun [⟨0, "0", false⟩, ⟨1, "1", false⟩, ⟨2, "0", false⟩] "9" =
      ([], true) := by
  constructor
  · simpa using send_delivers_to_matching_only
      [⟨0, "0", false⟩, ⟨1, "1", false⟩, ⟨2, "0", false⟩] "0" (by decide)
  · simpa using send_delivers_to_matching_only
      [⟨0, "0", false⟩, ⟨1, "1", false⟩, ⟨2, "0", false⟩] "9" (by decide)

/-! ## C4 — sendAll reaches every registration exactly once -/

/-- C4: when the underlying sends succeed and the registration set holds no
duplicate connections (guaranteed by the `Map`), `sendAll(payload)` delivers
to every currently-registered connection exactly once and to nobody else,
completes without error, and the multiset of deliveries does not depend on
insertion order. -/
theorem sendAll_delivers_exactly_once (cs : List Client)
    (hthrow : ∀ c ∈ cs, c.sendThrows = false)
    (hnodup : (cs.map Client.id).Nodup) :
    (∀ c ∈ cs, (sendAllRun cs).1.count c.id = 1) ∧
    (∀ i, i ∉ cs.map Client.id → (sendAllRun cs).1.count i = 0) ∧
    (sendAllRun cs).2 = true ∧
    (∀ cs', cs'.Perm cs → (sendAllRun cs').1.Perm (sendAllRun cs).1) := by
  have h1 := sendAllRun_of_noThrow cs hthrow
  refine ⟨?_, ?_, ?_, ?_⟩
  · intro c hc
    rw [h1]
    exact List.count_eq_one_of_mem hnodup (List.mem_map_of_mem Client.id hc)
  · intro i hi
    rw [h1]
    exact List.count_eq_zero.mpr hi
  · rw [h1]
  · intro cs' hp
    have hthrow' : ∀ c ∈ cs', c.sendThrows = false := fun c hc =>
      hthrow c (hp.subset hc)
    rw [sendAllRun_of_noThrow cs' hthrow', h1]
    exact hp.map Client.id

/-- Witness for C4: two registrations; each is delivered to exactly once,
an unregistered id receives nothing, and the reversed insertion order yields
a permutation of the same deliveries. -/
theorem sendAll_delivers_exactly_once_witness :
    (sendAllRun [⟨5, "0", false⟩, ⟨7, "1", false⟩]).1.count 5 = 1 ∧
    (sendAllRun [⟨5, "0", false⟩, ⟨7, "1", false⟩]).1.count 9 = 0 ∧
    (sendAllRun [⟨7, "1", false⟩, ⟨5, "0", false⟩]).1.Perm
      (sendAllRun [⟨5, "0", false⟩, ⟨7, "1", false⟩]).1 := by
  refine ⟨?_, ?_, ?_⟩
  · exact (sendAll_delivers_exactly_once [⟨5, "0", false⟩, ⟨7, "1", false⟩]
      (by decide) (by decide)).1 ⟨5, "0", false⟩ (by decide)
  · exact (sendAll_delivers_exactly_once [⟨5, "0", false⟩, ⟨7, "1", false⟩]
      (by decide) (by decide)).2.1 9 (by decide)
  · exact (sendAll_delivers_exactly_once [⟨5, "0", false⟩, ⟨7, "1", false⟩]
      (by decide) (by decide)).2.2.2 [⟨7, "1", false⟩, ⟨5, "0", false⟩]
      (List.Perm.swap _ _ _)

/-! ## C8 — processAction dispatches by tag -/

/-- C8: `processAction` dispatches on the action's tag: an `update` action
invokes exactly `Master.onUpdate`, a `chat` action exactly
`Master.onChatMessage`, a `sync` action exactly `Master.onSync`, each with
the carried argument tuple unmodified; a datum whose tag is outside the
closed set invokes no `Master` entry point (the switch has no default). -/
theorem processAction_dispatches_by_tag :
    (∀ a : UpdateArgs, processAction (.action (.update a)) = [.onUpdate a]) ∧
    (∀ a : ChatArgs,
      processAction (.action (.chat a)) = [.onChatMessage a]) ∧
    (∀ a : SyncArgs, processAction (.action (.sync a)) = [.onSync a]) ∧
    (∀ tag : String, processAction (.other tag) = []) :=
  ⟨fun _ => rfl, fun _ => rfl, fun _ => rfl, fun _ => rfl⟩

/-! ## C10 — register/unregister edge cases -/

/-- Replacing every entry keyed `c.id` by `c` itself does not change how
many entries carry that key. -/
theorem countP_map_replace (l : List Client) (c : Client) :
    (l.map fun x => if x.id = c.id then c else x).countP
        (fun x => decide (x.id = c.id)) =
      l.countP fun x => decide (x.id = c.id) := by
  induction l with
  | nil => rfl
  | cons a l ih =>
    by_cases h : a.id = c.id <;> simp [List.countP_cons, h, ih]

/-- One `registerClient` leaves exactly one entry keyed `c.id` whenever the
map previously held at most one (the `Map` invariant). -/
theorem countP_registerClient (st : HostState) (c : Client)
    (h : st.clients.countP (fun x => decide (x.id = c.id)) ≤ 1) :
    (registerClient st c).clients.countP (fun x => decide (x.id = c.id)) =
      1 := by
  by_cases hAny : st.clients.any (fun x => x.id = c.id) = true
  · have hpos : st.clients.countP (fun x => decide (x.id = c.id)) ≠ 0 := by
      intro h0
      obtain ⟨x, hx, hpx⟩ := List.any_eq_true.mp hAny
      exact absurd hpx (by simpa using List.countP_eq_zero.mp h0 x hx)
    have h1 : st.clients.countP (fun x => decide (x.id = c.id)) = 1 := by
      omega
    simp only [registerClient, hAny, if_true]
    rw [countP_map_replace, h1]
  · have h0 : st.clients.countP (fun x => decide (x.id = c.id)) = 0 := by
      refine List.countP_eq_zero.mpr fun x hx => ?_
      intro hpx
      exact hAny (List.any_eq_true.mpr ⟨x, hx, by simpa using hpx⟩)
    simp [registerClient, hAny, List.countP_append, List.countP_cons, h0]

/-- C10: `unregisterClient` with a client whose connection is not in the map
leaves the map unchanged but still notifies the `Master` that this player
disconnected; `registerClient` called twice with the same client object
leaves exactly one entry in the map while notifying the `Master` of a
connection each time. -/
theorem register_unregister_edge_cases :
    (∀ (st : HostState) (c : Client), (∀ x ∈ st.clients, x.id ≠ c.id) →
      (unregisterClient st c).clients = st.clients ∧
      (unregisterClient st c).calls = st.calls ++
        [.onConnectionChange st.matchID c.playerID none false]) ∧
    (∀ (st : HostState) (c : Client),
      st.clients.countP (fun x => decide (x.id = c.id)) ≤ 1 →
      (registerClient (registerClient st c) c).clients.countP
          (fun x => decide (x.id = c.id)) = 1 ∧
      (registerClient (registerClient st c) c).calls = st.calls ++
        [.onConnectionChange st.matchID c.playerID none true,
          .onConnectionChange st.matchID c.playerID none true]) := by
  constructor
  · intro st c h
    refine ⟨?_, rfl⟩
    exact List.eraseP_of_forall_not fun x hx => by simpa using h x hx
  · intro st c h
    constructor
    · have h1 := countP_registerClient st c h
      exact countP_registerClient (registerClient st c) c (by omega)
    · simp [registerClient]

/-- Witness for C10: deleting an absent client keeps the single existing
registration; registering the same client twice into an empty map leaves
exactly one entry. -/
theorem register_unregister_edge_cases_witness :
    (unregisterClient ⟨"M", [⟨1, "q", false⟩], []⟩ ⟨0, "p", false⟩).clients =
      [⟨1, "q", false⟩] ∧
    (registerClient (registerClient ⟨"M", [], []⟩ ⟨0, "p", false⟩)
        ⟨0, "p", false⟩).clients.countP
      (fun x => decide (x.id = Client.id ⟨0, "p", false⟩)) = 1 := by
  constructor
  · exact (register_unregister_edge_cases.1 ⟨"M", [⟨1, "q", false⟩], []⟩
      ⟨0, "p", false⟩ (by decide)).1
  · exact (register_unregister_edge_cases.2 ⟨"M", [], []⟩
      ⟨0, "p", false⟩ (by decide)).1

/-! ## Transport helper lemmas and concrete states -/

/-- A concrete non-host transport in its initial state. -/
def clientState0 : TransportState :=
  { gameName := "g", matchID := "M", playerID := some "1",
    credentials := none, numPlayers := 2, isHost := false, peer := none,
    emit := none, connectionStatus := false, issued := [] }

/-- A concrete host transport in its initial state. -/
def hostState0 : TransportState :=
  { gameName := "chess", matchID := "M1", playerID := some "0",
    credentials := some "tok", numPlayers := 2, isHost := true,
    peer := none, emit := none, connectionStatus := false, issued := [] }

/-- Either role, `connect()` ends by setting the connection status true. -/
theorem connect_connectionStatus (s : TransportState) :
    (connect s).connectionStatus = true := by
  by_cases h : s.isHost <;>
    simp [connect, h, setConnectionStatus, requestSync, emitAction]

/-- Host path of `connect()`: the peer listens on the namespaced id, the
local loopback emit closure is installed, and a `sync` action carrying the
current identity parameters is issued at once. -/
theorem connect_host (s : TransportState) (h : s.isHost = true) :
    (connect s).peer = some (.hostListening (namespacedPeerID s)) ∧
    (connect s).emit = some .localHost ∧
    (connect s).issued = s.issued ++
      [.sync ⟨s.matchID, s.playerID, s.credentials, s.numPlayers⟩] := by
  refine ⟨?_, ?_, ?_⟩ <;>
    simp [connect, h, setConnectionStatus, requestSync, emitAction]

/-- Client path of `connect()` (the synchronous part): the peer awaits its
own `open` with the dial target recorded, nothing is emitted, and the emit
closure keeps whatever value it had. -/
theorem connect_client (s : TransportState) (h : s.isHost = false) :
    (connect s).peer =
      some (.clientAwaitingPeerOpen (namespacedPeerID s)) ∧
    (connect s).issued = s.issued ∧
    (connect s).emit = s.emit := by
  refine ⟨?_, ?_, ?_⟩ <;> simp [connect, h, setConnectionStatus]

/-- Client path of `connect()` after the peer's `open` and the dial's `open`
events fire: the remote emit closure is installed on peer open, and the dial
open issues a `sync` carrying the transport's current identity parameters. -/
theorem connect_client_events (s : TransportState) (h : s.isHost = false) :
    (peerOpenEvent (connect s)).peer =
      some (.clientAwaitingDialOpen (namespacedPeerID s)) ∧
    (peerOpenEvent (connect s)).emit = some .remoteHost ∧
    (peerOpenEvent (connect s)).issued = s.issued ∧
    (dialOpenEvent (peerOpenEvent (connect s))).issued = s.issued ++
      [.sync ⟨s.matchID, s.playerID, s.credentials, s.numPlayers⟩] ∧
    (dialOpenEvent (peerOpenEvent (connect s))).connectionStatus = true := by
  refine ⟨?_, ?_, ?_, ?_, ?_⟩ <;>
    simp [connect, h, setConnectionStatus, peerOpenEvent, dialOpenEvent,
      requestSync, emitAction]

/-! ## C2 — client connection status versus dial success -/

/-- C2 counterexample: a non-host transport's `connect()` reports the
transport connected (connection status true) while the peer is still waiting
for its own `open` event — the dial to the host has not even started, and no
`Sync` has been issued. -/
theorem client_connected_before_dial_counterexample :
    (connect clientState0).connectionStatus = true ∧
    (connect clientState0).peer =
      some (.clientAwaitingPeerOpen (some "boardgameio-g-matchid-M")) ∧
    (connect clientState0).issued = [] := by
  decide

/-- C2 (amended): a non-host transport's `connect()` sets the connection
status to true synchronously, before the dial to the host's endpoint has
succeeded; the `Sync` action is issued only once the dial succeeds (on the
dialed connection's `open` event), which changes nothing further about the
connection status. -/
theorem client_status_and_sync_timing (s : TransportState)
    (h : s.isHost = false) :
    (connect s).connectionStatus = true ∧
    (connect s).peer =
      some (.clientAwaitingPeerOpen (namespacedPeerID s)) ∧
    (connect s).issued = s.issued ∧
    (dialOpenEvent (peerOpenEvent (connect s))).issued = s.issued ++
      [.sync ⟨s.matchID, s.playerID, s.credentials, s.numPlayers⟩] ∧
    (dialOpenEvent (peerOpenEvent (connect s))).connectionStatus = true :=
  ⟨connect_connectionStatus s, (connect_client s h).1,
    (connect_client s h).2.1, (connect_client_events s h).2.2.2.1,
    (connect_client_events s h).2.2.2.2⟩

/-- Witness for C2 (amended) at the concrete client state. -/
theorem client_status_and_sync_timing_witness :
    (connect clientState0).connectionStatus = true ∧
    (dialOpenEvent (peerOpenEvent (connect clientState0))).issued =
      clientState0.issued ++
        [.sync ⟨clientState0.matchID, clientState0.playerID,
          clientState0.credentials, clientState0.numPlayers⟩] :=
  ⟨(client_status_and_sync_timing clientState0 rfl).1,
    (client_status_and_sync_timing clientState0 rfl).2.2.2.1⟩

/-! ## C5 — sends before the emit-path is installed -/

/-- C5: while no emit closure is installed, `sendAction`, `sendChatMessage`
and `requestSync` each return leaving the transport state completely
unchanged — nothing is emitted, nothing is queued, and no exception can
arise (the functions are total). -/
theorem sends_without_emit_are_dropped (s : TransportState)
    (h : s.emit = none) :
    (∀ action stateID, sendAction s action stateID = s) ∧
    (∀ matchID chatMessage, sendChatMessage s matchID chatMessage = s) ∧
    requestSync s = s := by
  refine ⟨fun a n => ?_, fun m c => ?_, ?_⟩ <;>
    simp [sendAction, sendChatMessage, requestSync, emitAction, h]

/-- Witness for C5 at the concrete client state, whose emit closure was
never installed. -/
theorem sends_without_emit_are_dropped_witness :
    sendAction clientState0 3 7 = clientState0 ∧
    sendChatMessage clientState0 "M" 5 = clientState0 ∧
    requestSync clientState0 = clientState0 :=
  ⟨(sends_without_emit_are_dropped clientState0 rfl).1 3 7,
    (sends_without_emit_are_dropped clientState0 rfl).2.1 "M" 5,
    (sends_without_emit_are_dropped clientState0 rfl).2.2⟩

/-! ## C6 — deterministic endpoint naming -/

/-- C6: for every game name and non-empty match id the namespaced peer id is
exactly the string boardgameio-gameName-matchid-matchID, and `connect()`
uses this same string both as the host's listening id and as the client's
dial target (still the dial target after the client peer opens). -/
theorem namespacedPeerID_format (s : TransportState) (h : s.matchID ≠ "") :
    namespacedPeerID s =
      some ("boardgameio-" ++ s.gameName ++ "-matchid-" ++ s.matchID) ∧
    (s.isHost = true → (connect s).peer = some (.hostListening
      (some ("boardgameio-" ++ s.gameName ++ "-matchid-" ++ s.matchID)))) ∧
    (s.isHost = false → (connect s).peer = some (.clientAwaitingPeerOpen
      (some ("boardgameio-" ++ s.gameName ++ "-matchid-" ++ s.matchID)))) ∧
    (s.isHost = false →
      (peerOpenEvent (connect s)).peer = some (.clientAwaitingDialOpen
        (some ("boardgameio-" ++ s.gameName ++ "-matchid-" ++
          s.matchID)))) := by
  have hname : namespacedPeerID s =
      some ("boardgameio-" ++ s.gameName ++ "-matchid-" ++ s.matchID) := by
    simp [namespacedPeerID, h]
  refine ⟨hname, fun hH => ?_, fun hC => ?_, fun hC => ?_⟩
  · rw [(connect_host s hH).1, hname]
  · rw [(connect_client s hC).1, hname]
  · rw [(connect_client_events s hC).1, hname]

/-- Witness for C6 at the concrete host and client states. -/
theorem namespacedPeerID_format_witness :
    namespacedPeerID hostState0 = some "boardgameio-chess-matchid-M1" ∧
    (connect hostState0).peer =
      some (.hostListening (some "boardgameio-chess-matchid-M1")) ∧
    (connect clientState0).peer =
      some (.clientAwaitingPeerOpen (some "boardgameio-g-matchid-M")) := by
  refine ⟨?_, ?_, ?_⟩
  · simpa using (namespacedPeerID_format hostState0 (by decide)).1
  · simpa using (namespacedPeerID_format hostState0 (by decide)).2.1 rfl
  · simpa using (namespacedPeerID_format clientState0 (by decide)).2.2.1 rfl

/-! ## C9 — disconnect is idempotent -/

/-- C9: calling `disconnect()` twice produces exactly the state one call
produces; after it the peer handle is null and the connection status is
false, so a second call is a safe no-op. -/
theorem disconnect_idempotent (s : TransportState) :
    disconnect (disconnect s) = disconnect s ∧
    (disconnect s).peer = none ∧
    (disconnect s).connectionStatus = false :=
  ⟨rfl, rfl, rfl⟩

/-! ## C7 — identity updates reconnect with the new parameter -/

/-- C7 counterexample: a non-host transport calls `updateMatchID("M2")`;
when the call returns the transport reports itself connected but its emitted
trace is empty — no `Sync` action carrying the new match id (nor any other
action) has been issued, because the client only requests a sync from the
dialed connection's later `open` event. -/
theorem client_update_no_fresh_sync_counterexample :
    (updateMatchID clientState0 "M2").issued = [] ∧
    (updateMatchID clientState0 "M2").connectionStatus = true := by
  decide

/-- C7 (amended): each of `updateMatchID`, `updatePlayerID` and
`updateCredentials` first stores the new identity parameter and then
performs a full `disconnect()` followed by `connect()`; afterwards the
connection status is true.  For a host a fresh `Sync` action carrying the
new parameter has been issued by the time the call returns; for a client
nothing is issued at return time, and the fresh `Sync` carrying the new
parameter is issued once the new dial succeeds (after the peer-open and
dial-open events). -/
theorem update_params_reconnect (s : TransportState) (id : String)
    (cred : Option String) :
    updateMatchID s id = connect (disconnect { s with matchID := id }) ∧
    updatePlayerID s id =
      connect (disconnect { s with playerID := some id }) ∧
    updateCredentials s cred =
      connect (disconnect { s with credentials := cred }) ∧
    (updateMatchID s id).connectionStatus = true ∧
    (updatePlayerID s id).connectionStatus = true ∧
    (updateCredentials s cred).connectionStatus = true ∧
    (s.isHost = true →
      (updateMatchID s id).issued = s.issued ++
        [.sync ⟨id, s.playerID, s.credentials, s.numPlayers⟩] ∧
      (updatePlayerID s id).issued = s.issued ++
        [.sync ⟨s.matchID, some id, s.credentials, s.numPlayers⟩] ∧
      (updateCredentials s cred).issued = s.issued ++
        [.sync ⟨s.matchID, s.playerID, cred, s.numPlayers⟩]) ∧
    (s.isHost = false →
      (updateMatchID s id).issued = s.issued ∧
      (dialOpenEvent (peerOpenEvent (updateMatchID s id))).issued =
        s.issued ++ [.sync ⟨id, s.playerID, s.credentials, s.numPlayers⟩] ∧
      (dialOpenEvent (peerOpenEvent (updatePlayerID s id))).issued =
        s.issued ++
          [.sync ⟨s.matchID, some id, s.credentials, s.numPlayers⟩] ∧
      (dialOpenEvent (peerOpenEvent (updateCredentials s cred))).issued =
        s.issued ++
          [.sync ⟨s.matchID, s.playerID, cred, s.numPlayers⟩]) := by
  refine ⟨rfl, rfl, rfl, connect_connectionStatus _,
    connect_connectionStatus _, connect_connectionStatus _,
    fun hH => ⟨?_, ?_, ?_⟩, fun hC => ⟨?_, ?_, ?_, ?_⟩⟩
  · exact (connect_host (disconnect { s with matchID := id }) hH).2.2
  · exact (connect_host (disconnect { s with playerID := some id }) hH).2.2
  · exact (connect_host (disconnect { s with credentials := cred }) hH).2.2
  · exact (connect_client (disconnect { s with matchID := id }) hC).2.1
  · exact (connect_client_events
      (disconnect { s with matchID := id }) hC).2.2.2.1
  · exact (connect_client_events
      (disconnect { s with playerID := some id }) hC).2.2.2.1
  · exact (connect_client_events
      (disconnect { s with credentials := cred }) hC).2.2.2.1

/-- Witness for C7 (amended): a host update issues the fresh `Sync` with the
new match id at once; a client update issues it after the reconnect's dial
succeeds. -/
theorem update_params_reconnect_witness :
    (updateMatchID hostState0 "M2").issued = hostState0.issued ++
      [.sync ⟨"M2", hostState0.playerID, hostState0.credentials,
        hostState0.numPlayers⟩] ∧
    (dialOpenEvent (peerOpenEvent (updateMatchID clientState0 "M2"))).issued
      = clientState0.issued ++
        [.sync ⟨"M2", clientState0.playerID, clientState0.credentials,
          clientState0.numPlayers⟩] :=
  ⟨((update_params_reconnect hostState0 "M2" none).2.2.2.2.2.2.1 rfl).1,
    ((update_params_reconnect clientState0 "M2" none).2.2.2.2.2.2.2
      rfl).2.1⟩

end BoardgameIO.P2P
